import Mathlib

/-!
Shallow embedding of the Propulsion_Design repository (Propulsion.py, Stage.py,
Mission.py, LaunchVehicle.py, driver.py) and proofs about the claims of its
specification.

Python floats are modelled as real numbers.  Python exceptions are modelled by
the `Except PyErr` monad: every `raise ValueError(msg)` in the source becomes
`.error (.valueError msg)` with `msg` an inductive tag standing for the exact
message string, and a float division `a / b` with `b = 0` becomes
`.error .zeroDivisionError` (CPython raises `ZeroDivisionError`, which is a
class distinct from `ValueError`).  `math.log x` raises
`ValueError("math domain error")` for `x ≤ 0` and is modelled by `mathLog`.
-/

noncomputable section

/-- Standard gravity, the `G0 = 9.80665` class constant duplicated in
`Propulsion`, `Stage` and `Mission` in the source (all three copies agree). -/
def G0 : ℝ := 9.80665

/-- Engine parameter names that can appear in the message of the
`Missing required parameter(s): ...` error raised by `Propulsion._require`. -/
inductive ParamName
  | mdot
  | ve
  deriving DecidableEq

/-- Tags for the exact `ValueError` message strings raised by the source:
`missingParams ns` is `"Missing required parameter(s): <ns>"` (Propulsion.py),
`initialMassMustExceedFinal` is `"Initial mass must exceed final mass."`
(Mission.py), `ispMustBePositive` is `"Isp must be positive."` (Mission.py),
`mdotMustBeDefinedAndPositive` is
`"Engine mass flow rate (mdot) must be defined and positive."` (Stage.py),
`stageHasNoEngine` is `"Stage has no engine."` (Stage.py), and
`mathDomainError` is the `"math domain error"` raised by `math.log`. -/
inductive ErrMsg
  | missingParams (names : List ParamName)
  | initialMassMustExceedFinal
  | ispMustBePositive
  | mdotMustBeDefinedAndPositive
  | stageHasNoEngine
  | mathDomainError
  deriving DecidableEq

/-- Python exceptions that the modelled code can raise.  `valueError` is
`ValueError` (with its message tag), `zeroDivisionError` is the
`ZeroDivisionError` raised by float division by zero, `attributeError` is the
`AttributeError` raised when an attribute of `None` is accessed, and
`shapeMismatch` models the ShapeMismatch error of the specification's error
taxonomy (used only by the spec-modelled sweep). -/
inductive PyErr
  | valueError (msg : ErrMsg)
  | zeroDivisionError
  | attributeError
  | shapeMismatch
  deriving DecidableEq

/-- CPython float division: `a / b` raises `ZeroDivisionError` when `b = 0`. -/
def pydiv (a b : ℝ) : Except PyErr ℝ :=
  if b = 0 then .error .zeroDivisionError else .ok (a / b)

/-- CPython `math.log`: raises `ValueError("math domain error")` for
arguments `≤ 0`, otherwise returns the natural logarithm. -/
def mathLog (x : ℝ) : Except PyErr ℝ :=
  if x ≤ 0 then .error (.valueError .mathDomainError) else .ok (Real.log x)

/-- Embedding of class `Propulsion` (Propulsion.py).  Fields defaulting to
`None` in the constructor are `Option ℝ`; `eta` defaults to `1.0` and `p_a`
to `0.0` in the source. -/
structure Propulsion where
  mdot : Option ℝ
  ve : Option ℝ
  eta : ℝ
  p_e : Option ℝ
  p_a : ℝ
  A_e : Option ℝ

namespace Propulsion

/-- Embedding of `Propulsion._require`: raises
`ValueError("Missing required parameter(s): ...")` listing all `None` fields
among the given named values. -/
def require_params (ps : List (ParamName × Option ℝ)) : Except PyErr Unit :=
  let missing := ((ps.filter (fun q => q.2.isNone)).map Prod.fst)
  if missing.isEmpty then .ok () else .error (.valueError (.missingParams missing))

/-- Embedding of `Propulsion.momentum_thrust`: requires `mdot` and `ve`,
returns `ṁ · v_e`. -/
def momentum_thrust (p : Propulsion) : Except PyErr ℝ :=
  match require_params [(.mdot, p.mdot), (.ve, p.ve)] with
  | .error e => .error e
  | .ok _ => .ok (p.mdot.getD 0 * p.ve.getD 0)

/-- Embedding of `Propulsion.pressure_thrust`: `(p_e − p_a) · A_e`, or `0.0`
(without error) when `p_e` or `A_e` is unset. -/
def pressure_thrust (p : Propulsion) : ℝ :=
  match p.p_e, p.A_e with
  | some pe, some ae => (pe - p.p_a) * ae
  | _, _ => 0

/-- Embedding of `Propulsion.total_thrust`: requires `mdot` and `ve`, returns
`η · (momentum_thrust + pressure_thrust)`. -/
def total_thrust (p : Propulsion) : Except PyErr ℝ :=
  match require_params [(.mdot, p.mdot), (.ve, p.ve)] with
  | .error e => .error e
  | .ok _ =>
    match momentum_thrust p with
    | .error e => .error e
    | .ok mt => .ok (p.eta * (mt + pressure_thrust p))

/-- Embedding of `Propulsion.specific_impulse`: requires `mdot`, returns
`T / (ṁ · g₀)`; the division raises `ZeroDivisionError` when `ṁ = 0`. -/
def specific_impulse (p : Propulsion) : Except PyErr ℝ :=
  match require_params [(.mdot, p.mdot)] with
  | .error e => .error e
  | .ok _ =>
    match total_thrust p with
    | .error e => .error e
    | .ok t => pydiv t (p.mdot.getD 0 * G0)

/-- Embedding of `Propulsion.effective_exhaust_velocity`: requires `mdot`,
returns `T / ṁ`; the division raises `ZeroDivisionError` when `ṁ = 0`. -/
def effective_exhaust_velocity (p : Propulsion) : Except PyErr ℝ :=
  match require_params [(.mdot, p.mdot)] with
  | .error e => .error e
  | .ok _ =>
    match total_thrust p with
    | .error e => .error e
    | .ok t => pydiv t (p.mdot.getD 0)

end Propulsion

/-- Embedding of class `Stage` (Stage.py).  The constructor takes an engine
(possibly `None`), propellant mass, dry mass, and payload mass (default 0). -/
structure Stage where
  engine : Option Propulsion
  m_prop : ℝ
  m_dry : ℝ
  m_payload : ℝ

namespace Stage

/-- Embedding of `Stage.initial_mass`: `m_prop + m_dry + m_payload`. -/
def initial_mass (s : Stage) : ℝ := s.m_prop + s.m_dry + s.m_payload

/-- Embedding of `Stage.final_mass`: `m_dry + m_payload`. -/
def final_mass (s : Stage) : ℝ := s.m_dry + s.m_payload

/-- Embedding of `Stage.burn_time`: `m_prop / ṁ`, raising
`ValueError("Engine mass flow rate (mdot) must be defined and positive.")`
when `ṁ` is unset or `≤ 0`.  Accessing `.mdot` on a `None` engine would be an
`AttributeError` in Python. -/
def burn_time (s : Stage) : Except PyErr ℝ :=
  match s.engine with
  | none => .error .attributeError
  | some e =>
    match e.mdot with
    | none => .error (.valueError .mdotMustBeDefinedAndPositive)
    | some md =>
      if md ≤ 0 then .error (.valueError .mdotMustBeDefinedAndPositive)
      else .ok (s.m_prop / md)

/-- Embedding of `Stage.delta_v`: raises `ValueError("Stage has no engine.")`
when the engine is `None`, otherwise computes
`g₀ · Isp · log(initial_mass / final_mass)`.  The source performs NO
validation of the mass ratio: `math.log` receives `m0 / mf` directly
(raising its generic math-domain error only for a non-positive ratio, and
the float division raising `ZeroDivisionError` for `mf = 0`). -/
def delta_v (s : Stage) : Except PyErr ℝ :=
  match s.engine with
  | none => .error (.valueError .stageHasNoEngine)
  | some e =>
    match e.specific_impulse with
    | .error err => .error err
    | .ok isp =>
      match pydiv s.initial_mass s.final_mass with
      | .error err => .error err
      | .ok ratio =>
        match mathLog ratio with
        | .error err => .error err
        | .ok l => .ok (G0 * isp * l)

end Stage

/-- Embedding of class `Mission` (Mission.py).  `min_tw` defaults to `0.0`,
`max_burn_time` to `None`, `gravity_loss` and `margin` to `0.0`. -/
structure Mission where
  delta_v_required : ℝ
  min_tw : ℝ
  max_burn_time : Option ℝ
  gravity_loss : ℝ
  margin : ℝ

namespace Mission

/-- Embedding of `Mission.total_delta_v_required`:
`(delta_v_required + gravity_loss) · (1 + margin)`. -/
def total_delta_v_required (m : Mission) : ℝ :=
  (m.delta_v_required + m.gravity_loss) * (1 + m.margin)

/-- Embedding of `Mission.achieved_delta_v`: raises
`ValueError("Initial mass must exceed final mass.")` when `m0 ≤ mf`,
otherwise returns `g₀ · Isp · log(m0 / mf)`.  The division `m0 / mf` is a
CPython float division (`ZeroDivisionError` for `mf = 0`) and `math.log`
raises its math-domain `ValueError` for a non-positive ratio. -/
def achieved_delta_v (_m : Mission) (isp m0 mf : ℝ) : Except PyErr ℝ :=
  if m0 ≤ mf then .error (.valueError .initialMassMustExceedFinal)
  else
    match pydiv m0 mf with
    | .error err => .error err
    | .ok ratio =>
      match mathLog ratio with
      | .error err => .error err
      | .ok l => .ok (G0 * isp * l)

/-- Embedding of `Mission.delta_v_satisfied`:
`achieved_delta_v ≥ total_delta_v_required` (propagating errors). -/
def delta_v_satisfied (m : Mission) (isp m0 mf : ℝ) : Except PyErr Bool :=
  match m.achieved_delta_v isp m0 mf with
  | .error err => .error err
  | .ok dv => .ok (if m.total_delta_v_required ≤ dv then true else false)

/-- Embedding of `Mission.thrust_to_weight_satisfied`: `True` when
`min_tw ≤ 0`, else `thrust / (mass · g₀) ≥ min_tw` (the float division
raises `ZeroDivisionError` when `mass = 0`). -/
def thrust_to_weight_satisfied (m : Mission) (thrust mass : ℝ) :
    Except PyErr Bool :=
  if m.min_tw ≤ 0 then .ok true
  else
    match pydiv thrust (mass * G0) with
    | .error err => .error err
    | .ok q => .ok (if m.min_tw ≤ q then true else false)

/-- Embedding of `Mission.burn_time_satisfied`: `True` when `max_burn_time`
is `None`, else `burn_time ≤ max_burn_time`. -/
def burn_time_satisfied (m : Mission) (bt : ℝ) : Bool :=
  match m.max_burn_time with
  | none => true
  | some mx => if bt ≤ mx then true else false

/-- Embedding of `Mission.propellant_for_delta_v`: the target delta-v defaults
to `total_delta_v_required()`; raises `ValueError("Isp must be positive.")`
for `isp ≤ 0`, otherwise returns
`(dry + payload) · (exp(Δv / (g₀ · isp)) − 1)`. -/
def propellant_for_delta_v (m : Mission) (isp dry_mass payload_mass : ℝ)
    (delta_v : Option ℝ) : Except PyErr ℝ :=
  let dv := delta_v.getD m.total_delta_v_required
  if isp ≤ 0 then .error (.valueError .ispMustBePositive)
  else .ok ((dry_mass + payload_mass) * (Real.exp (dv / (G0 * isp)) - 1))

end Mission

/-- Embedding of class `LaunchVehicle` (LaunchVehicle.py): an ordered list of
stages, bottom (index 0) to top. -/
structure LaunchVehicle where
  stages : List Stage

/-- Embedding of the loop in `LaunchVehicle.stack_stages`: the loop runs over
`i = n−2, …, 0`, and at index `i` adds `Σ (m_prop + m_dry + m_payload)` over
`stages[i+1:]` — whose entries at indices `> i` have ALREADY been updated by
earlier iterations — to `stages[i].m_payload`.  The recursion processes the
tail first (the final states of all stages above) and then updates the head,
which is exactly the loop's evaluation order; a singleton or empty list is
untouched (the loop body never runs). -/
def stack_stages_list : List Stage → List Stage
  | [] => []
  | [s] => [s]
  | s :: rest =>
    let rest' := stack_stages_list rest
    let upper := ((rest'.map (fun t => t.m_prop + t.m_dry + t.m_payload)).sum)
    { s with m_payload := s.m_payload + upper } :: rest'

/-- Embedding of `LaunchVehicle.stack_stages` (in-place mutation modelled as
returning the updated vehicle). -/
def stack_stages (v : LaunchVehicle) : LaunchVehicle :=
  ⟨stack_stages_list v.stages⟩

/-- A Python `try: ... except ValueError: ...` that turns a `ValueError`
result into `None` and lets every other exception propagate, as in the
`try` blocks of `evaluate_stage_mission` (driver.py). -/
def catchValue (x : Except PyErr α) : Except PyErr (Option α) :=
  match x with
  | .ok a => .ok (some a)
  | .error (.valueError _) => .ok none
  | .error e => .error e

/-- Result dictionary of `evaluate_stage_mission` (driver.py). -/
structure StageMissionResult where
  initial_mass : ℝ
  final_mass : ℝ
  burn_time : Option ℝ
  thrust : Option ℝ
  isp : Option ℝ
  achieved_delta_v : Option ℝ
  delta_v_ok : Bool
  thrust_to_weight_ok : Bool
  burn_time_ok : Bool
  mission_satisfied : Bool

/-- Embedding of `evaluate_stage_mission` (driver.py).  Each metric is
computed inside `try: ... except ValueError:` and set to `None` on a
`ValueError`; `dv_ok`/`tw_ok`/`bt_ok` are `False` when the corresponding
metric is `None`, and otherwise call the mission predicates OUTSIDE any
`try` block (so an exception there would propagate).  The source guards the
`delta_v_satisfied` call on `dv_achieved is not None` (which entails `isp`
is not `None`; the `some _, none` case below is unreachable). -/
def evaluate_stage_mission (engine : Propulsion) (stage : Stage)
    (mission : Mission) : Except PyErr StageMissionResult :=
  let m0 := stage.initial_mass
  let mf := stage.final_mass
  match catchValue stage.burn_time with
  | .error e => .error e
  | .ok bt =>
    match catchValue
        (match engine.total_thrust with
         | .error e => .error e
         | .ok t =>
           match engine.specific_impulse with
           | .error e => .error e
           | .ok i => .ok (t, i)) with
    | .error e => .error e
    | .ok pair =>
      let thrust := pair.map Prod.fst
      let isp := pair.map Prod.snd
      match (match isp with
             | none => Except.ok none
             | some i => catchValue (mission.achieved_delta_v i m0 mf)) with
      | .error e => .error e
      | .ok dv =>
        match (match dv, isp with
               | some _, some i => mission.delta_v_satisfied i m0 mf
               | _, _ => .ok false) with
        | .error e => .error e
        | .ok dv_ok =>
          match (match thrust with
                 | some t => mission.thrust_to_weight_satisfied t m0
                 | none => .ok false) with
          | .error e => .error e
          | .ok tw_ok =>
            let bt_ok := match bt with
                         | some b => mission.burn_time_satisfied b
                         | none => false
            .ok ⟨m0, mf, bt, thrust, isp, dv, dv_ok, tw_ok, bt_ok,
                 dv_ok && tw_ok && bt_ok⟩

/-- The engine freshly constructed for one grid cell of `vectorized_sweep`:
`Propulsion(mass_flow_rate=mdot, exit_velocity=ve, efficiency=template.eta,
exit_pressure=template.p_e, ambient_pressure=template.p_a,
exit_area=template.A_e)`. -/
def fresh_engine (eng : Propulsion) (ve mdot : ℝ) : Propulsion :=
  { mdot := some mdot, ve := some ve, eta := eng.eta,
    p_e := eng.p_e, p_a := eng.p_a, A_e := eng.A_e }

/-- One grid cell of `vectorized_sweep` (driver.py): returns
`(dv, tw, burn_time, feasible)` with `None` standing for the `np.nan`
written by the `except ValueError` branch (in which case `np.isnan` makes
the cell infeasible).  The grid values `ve`, `mdot` are numpy `float64`, so
the divisions for `isp`, `burn_time` and `tw` never raise (numpy returns
inf/nan instead); they are modelled by total real division.
`mission.achieved_delta_v` is called on the CPython floats `m0`, `mf` and
can raise: its `ValueError`s are caught by the cell's `except ValueError`,
while a `ZeroDivisionError` (from `mf = 0 < m0`) would abort the sweep. -/
def sweep_cell (eng : Propulsion) (st : Stage) (mission : Mission)
    (ve mdot : ℝ) : Except PyErr (Option ℝ × Option ℝ × Option ℝ × Bool) :=
  let m0 := st.initial_mass
  let mf := st.final_mass
  match (fresh_engine eng ve mdot).total_thrust with
  | .error err => .error err
  | .ok thrust =>
    let isp := thrust / (mdot * G0)
    let bt := st.m_prop / mdot
    match mission.achieved_delta_v isp m0 mf with
    | .ok dv =>
      let tw := thrust / (m0 * 9.80665)
      let feasible :=
        if dv < mission.total_delta_v_required then false
        else if tw < mission.min_tw then false
        else match mission.max_burn_time with
             | none => true
             | some mx => if mx < bt then false else true
      .ok (some dv, some tw, some bt, feasible)
    | .error (.valueError _) => .ok (none, none, none, false)
    | .error err => .error err

/-- Map a fallible function over a list, stopping at the first error
(the effect of a `for` loop whose body can raise). -/
def mapExcept (f : α → Except ε β) : List α → Except ε (List β)
  | [] => .ok []
  | a :: l =>
    match f a with
    | .error e => .error e
    | .ok b =>
      match mapExcept f l with
      | .error e => .error e
      | .ok bs => .ok (b :: bs)

/-- Grids returned by `vectorized_sweep`, row index `i` over `ve_range`,
column index `j` over `mdot_range` (meshgrid with `indexing='ij'`);
`none` entries stand for `np.nan`. -/
structure SweepGrids where
  ve : List (List ℝ)
  mdot : List (List ℝ)
  dv : List (List (Option ℝ))
  tw : List (List (Option ℝ))
  burn_time : List (List (Option ℝ))
  feasible : List (List Bool)

/-- Embedding of `vectorized_sweep` (driver.py).  The first component is the
returned dictionary of grids (or the exception aborting the loop); the
second and third components are the states of the caller's
`engine_template` and `stage_template` objects after the call — the loop
body only reads them, so they are threaded through unchanged. -/
def vectorized_sweep (eng : Propulsion) (st : Stage) (mission : Mission)
    (ve_range mdot_range : List ℝ) :
    Except PyErr SweepGrids × Propulsion × Stage :=
  let cells := mapExcept
    (fun ve => mapExcept (fun md => sweep_cell eng st mission ve md) mdot_range)
    ve_range
  (cells.map (fun rows =>
    { ve := ve_range.map (fun v => mdot_range.map (fun _ => v)),
      mdot := ve_range.map (fun _ => mdot_range),
      dv := rows.map (fun r => r.map (fun c => c.1)),
      tw := rows.map (fun r => r.map (fun c => c.2.1)),
      burn_time := rows.map (fun r => r.map (fun c => c.2.2.1)),
      feasible := rows.map (fun r => r.map (fun c => c.2.2.2)) }),
   eng, st)

/-- Modelled from the spec: a sweep candidate, one
`(exit-velocity, mass-flow-rate)` pair of a stage's candidate set
(spec §4.5, Glossary "Candidate set"). -/
structure EngineCandidate where
  ve : ℝ
  mdot : ℝ

/-- Modelled from the spec: per-stage metrics record of an
`EvaluationResult` (spec §6). -/
structure StageMetrics where
  index : ℕ
  achieved_delta_v : ℝ
  thrust : ℝ
  isp : ℝ
  burn_time : ℝ
  thrust_to_weight_ok : Bool
  burn_time_ok : Bool

/-- Modelled from the spec: the result of `evaluate_mission`
(spec §6): per-stage metrics, total delta-v, aggregate verdict. -/
structure EvaluationResult where
  stage_metrics : List StageMetrics
  total_delta_v : ℝ
  mission_satisfied : Bool

/-- Modelled from the spec: step 2 of `evaluate_mission` (spec §4.5) for the
stage at position `i` of the stacked vehicle: compute `Isp`, thrust,
burn time and achieved delta-v (errors propagate, spec §7); the
thrust-to-weight constraint is checked only for stage index 0 (step 3),
every stage is checked for burn time. -/
def stage_eval (mission : Mission) (i : ℕ) (s : Stage) :
    Except PyErr StageMetrics :=
  match s.engine with
  | none => .error (.valueError .stageHasNoEngine)
  | some e =>
    match e.specific_impulse with
    | .error err => .error err
    | .ok isp =>
      match e.total_thrust with
      | .error err => .error err
      | .ok thrust =>
        match s.burn_time with
        | .error err => .error err
        | .ok bt =>
          match mission.achieved_delta_v isp s.initial_mass s.final_mass with
          | .error err => .error err
          | .ok dv =>
            match (if i = 0 then
                     mission.thrust_to_weight_satisfied thrust s.initial_mass
                   else .ok true) with
            | .error err => .error err
            | .ok tw_ok => .ok ⟨i, dv, thrust, isp, bt, tw_ok,
                                mission.burn_time_satisfied bt⟩

/-- Modelled from the spec: `evaluate_mission(vehicle, mission)` (spec §4.5,
absent from src/ — only the single-stage `evaluate_stage_mission` exists
there): stack masses, evaluate every stage in order, accumulate total
delta-v, and aggregate feasibility as (total delta-v ≥ required) AND
(stage-0 T/W ok) AND (all stages' burn-time ok); structural errors
propagate, constraint failures are ordinary boolean results. -/
def evaluate_mission (v : LaunchVehicle) (mission : Mission) :
    Except PyErr EvaluationResult :=
  let stacked := stack_stages v
  match mapExcept (fun p => stage_eval mission p.1 p.2) stacked.stages.enum with
  | .error e => .error e
  | .ok ms =>
    let total := (ms.map StageMetrics.achieved_delta_v).sum
    .ok ⟨ms, total,
      (if mission.total_delta_v_required ≤ total then true else false)
        && ms.all StageMetrics.thrust_to_weight_ok
        && ms.all StageMetrics.burn_time_ok⟩

/-- Modelled from the spec: assigning a candidate's exit-velocity and
mass-flow-rate to a (freshly copied) stage's engine (spec §4.5). -/
def apply_candidate (s : Stage) (c : EngineCandidate) : Stage :=
  { s with
    engine :=
      Option.map (fun e => { e with ve := some c.ve, mdot := some c.mdot })
        s.engine }

/-- Modelled from the spec: an independently owned deep copy of the vehicle
template with one candidate assigned per stage (spec §4.5); value semantics
make the copy itself the identity. -/
def apply_combo (v : LaunchVehicle) (combo : List EngineCandidate) :
    LaunchVehicle :=
  ⟨(v.stages.zip combo).map (fun p => apply_candidate p.1 p.2)⟩

/-- Modelled from the spec: the Cartesian product of the per-stage candidate
sets in its natural nested order — the first set (stage 0) varies slowest
(spec §4.5). -/
def cartProd : List (List α) → List (List α)
  | [] => [[]]
  | xs :: rest => xs.flatMap (fun x => (cartProd rest).map (fun ys => x :: ys))

/-- Modelled from the spec: `n_stage_engine_sweep(vehicle_template, mission,
per_stage_candidate_sets)` (spec §4.5, absent from src/): requires exactly
one candidate set per stage (else ShapeMismatch, spec §7), enumerates the
Cartesian product in its natural nested order, evaluates each combination
on an independent copy of the template (structural errors propagate), and
returns — in enumeration order, without ranking or deduplication — exactly
the combinations whose evaluation is mission-satisfied. -/
def n_stage_engine_sweep (v : LaunchVehicle) (mission : Mission)
    (sets : List (List EngineCandidate)) :
    Except PyErr (List (List EngineCandidate × EvaluationResult)) :=
  if sets.length ≠ v.stages.length then .error .shapeMismatch
  else
    match mapExcept
        (fun combo =>
          match evaluate_mission (apply_combo v combo) mission with
          | .error e => .error e
          | .ok r => .ok (combo, r))
        (cartProd sets) with
    | .error e => .error e
    | .ok pairs => .ok (pairs.filter (fun pr => pr.2.mission_satisfied))

/-! Concrete inputs used by the witnesses and counterexamples below. -/

/-- A mission with no requirements at all (every default, `Δv` required 0). -/
def mission0 : Mission := ⟨0, 0, none, 0, 0⟩

/-- An engine with every optional field unset (`Propulsion()`). -/
def engine_blank : Propulsion := ⟨none, none, 1, none, 0, none⟩

/-- An engine with `ṁ = 1`, `v_e = 1` and efficiency `η = 1/2`. -/
def engine_half : Propulsion := ⟨some 1, some 1, 1/2, none, 0, none⟩

/-- An engine with `ṁ = 2`, `v_e = 3` and default efficiency. -/
def engine_unit : Propulsion := ⟨some 2, some 3, 1, none, 0, none⟩

/-- An engine with `ṁ = 0` and `v_e = 1`. -/
def engine_zero_mdot : Propulsion := ⟨some 0, some 1, 1, none, 0, none⟩

/-- An engine with `ṁ = 1` and `v_e = 1`. -/
def engine_one : Propulsion := ⟨some 1, some 1, 1, none, 0, none⟩

/-- A stage with zero propellant (initial mass = final mass = 1). -/
def stage_zero_prop : Stage := ⟨some engine_one, 0, 1, 0⟩

/-- A zero-propellant stage with dry mass 2 and payload 3. -/
def stage_w5 : Stage := ⟨some engine_unit, 0, 2, 3⟩

/-- An engine whose `ṁ` is unset but whose `v_e` is set. -/
def engine_missing : Propulsion := ⟨none, some 1, 1, none, 0, none⟩

/-- A stage whose engine has no `ṁ`. -/
def stage_missing : Stage := ⟨some engine_missing, 1, 1, 0⟩

/-- A stage on the all-unset engine, masses 2/3/4. -/
def stage_w3 : Stage := ⟨some engine_blank, 2, 3, 4⟩

/-- The stage template of driver.py's sweep scenario
(`m_prop = 2000`, `m_dry = 800`, payload 200). -/
def stage_c4 : Stage := ⟨some engine_blank, 2000, 800, 200⟩

/-- A stage of initial mass 1650 (`m_prop = 1000`, `m_dry = 150`,
payload 500), the stage of the specification's 2-stage stacking example. -/
def stage_1650 : Stage := ⟨some engine_blank, 1000, 150, 500⟩

/-- A three-stage vehicle, every stage equal to `stage_1650`. -/
def vehicle3 : LaunchVehicle := ⟨[stage_1650, stage_1650, stage_1650]⟩

/-- A stage for the sweep witness vehicle (`m_prop = 1`, `m_dry = 1`). -/
def stg_c2 : Stage := ⟨some engine_one, 1, 1, 0⟩

/-- A three-stage vehicle template for the sweep witness. -/
def veh_c2 : LaunchVehicle := ⟨[stg_c2, stg_c2, stg_c2]⟩

/-- Candidate set of size 3 for stage 0 of the sweep witness. -/
def set0_c2 : List EngineCandidate := [⟨1, 1⟩, ⟨2, 1⟩, ⟨3, 1⟩]

/-- Candidate set of size 3 for stage 1 of the sweep witness. -/
def set1_c2 : List EngineCandidate := [⟨4, 1⟩, ⟨5, 1⟩, ⟨6, 1⟩]

/-- Candidate set of size 2 for stage 2 of the sweep witness. -/
def set2_c2 : List EngineCandidate := [⟨7, 1⟩, ⟨8, 1⟩]

/-! Helper lemmas. -/

/-- `total_thrust` on an engine with both required fields set. -/
theorem Propulsion.total_thrust_eq (p : Propulsion) (a b : ℝ)
    (h1 : p.mdot = some a) (h2 : p.ve = some b) :
    p.total_thrust = .ok (p.eta * (a * b + p.pressure_thrust)) := by
  simp [Propulsion.total_thrust, Propulsion.momentum_thrust,
    Propulsion.require_params, h1, h2]

/-- If `f` succeeds on every element of `l` with a value satisfying `P`,
then `mapExcept f l` succeeds with a list of the same length all of whose
members satisfy `P`. -/
theorem mapExcept_ok_all (f : α → Except ε β) (P : β → Prop) :
    ∀ l : List α, (∀ a ∈ l, ∃ b, f a = .ok b ∧ P b) →
      ∃ out, mapExcept f l = .ok out ∧ out.length = l.length ∧
        ∀ b ∈ out, P b := by
  intro l
  induction l with
  | nil => exact fun _ => ⟨[], rfl, rfl, by simp⟩
  | cons a t ih =>
    intro h
    obtain ⟨b, hb, hPb⟩ := h a (by simp)
    obtain ⟨out, hout, hlen, hP⟩ := ih (fun x hx => h x (by simp [hx]))
    refine ⟨b :: out, by simp [mapExcept, hb, hout], by simp [hlen], ?_⟩
    intro c hc
    rcases List.mem_cons.mp hc with h1 | h1
    · exact h1 ▸ hPb
    · exact hP c h1

/-- With a nonzero template final mass, every cell of the vectorized sweep
succeeds (the only uncaught exception would be the `ZeroDivisionError` from
`final_mass = 0 < initial_mass`); and when the template has
`initial_mass ≤ final_mass` — the structural `ValueError` of
`achieved_delta_v` — the cell is recorded as all-NaN and infeasible. -/
theorem sweep_cell_ok (e : Propulsion) (s : Stage) (m : Mission)
    (ve md : ℝ) (hmf : s.final_mass ≠ 0) :
    ∃ c, sweep_cell e s m ve md = .ok c ∧
      (s.initial_mass ≤ s.final_mass → c = (none, none, none, false)) := by
  have htot := Propulsion.total_thrust_eq (fresh_engine e ve md) md ve rfl rfl
  by_cases h : s.initial_mass ≤ s.final_mass
  · refine ⟨(none, none, none, false), ?_, fun _ => rfl⟩
    simp [sweep_cell, htot, Mission.achieved_delta_v, h]
  · by_cases hr : s.initial_mass / s.final_mass ≤ 0
    all_goals
      cases hcell : sweep_cell e s m ve md with
      | ok c => exact ⟨c, rfl, fun hc => absurd hc h⟩
      | error err =>
        exfalso
        simp [sweep_cell, htot, Mission.achieved_delta_v, h, pydiv, hmf,
          mathLog, hr] at hcell

/-- Summing a constant over a list multiplies it by the length. -/
theorem sum_map_const_nat (xs : List α) (k : ℕ) :
    (xs.map fun _ => k).sum = xs.length * k := by
  induction xs with
  | nil => simp
  | cons a t ih => simp [ih, Nat.succ_mul, Nat.add_comm]

/-- The Cartesian product enumerates exactly the product of the set sizes. -/
theorem cartProd_length : ∀ L : List (List α),
    (cartProd L).length = (L.map List.length).prod := by
  intro L
  induction L with
  | nil => simp [cartProd]
  | cons xs rest ih =>
    simp only [cartProd, List.length_flatMap, Function.comp_def,
      List.length_map, ih, List.map_cons, List.prod_cons]
    exact sum_map_const_nat xs _

/-- `flatMap` of singletons is `map`. -/
theorem flatMap_singleton_map (f : α → β) :
    ∀ l : List α, (l.flatMap fun x => [f x]) = l.map f := by
  intro l
  induction l with
  | nil => rfl
  | cons a t ih => simp [ih]

/-- The Cartesian product of three sets in its nested order: the first
(stage-0) set varies slowest. -/
theorem cartProd_three (s0 s1 s2 : List α) :
    cartProd [s0, s1, s2] =
      s0.flatMap (fun a =>
        s1.flatMap (fun b => s2.map (fun c => [a, b, c]))) := by
  simp [cartProd, List.map_flatMap, List.flatMap_map, List.map_map,
    Function.comp]
  simp only [flatMap_singleton_map]

/-- Filtering the output of a successful `mapExcept` is the order-preserving
`filterMap` of the inputs. -/
theorem mapExcept_ok_filterMap (f : α → Except ε β) (p : β → Bool) :
    ∀ (l : List α) (out : List β), mapExcept f l = .ok out →
      out.filter p = l.filterMap (fun a =>
        match f a with
        | .ok b => if p b then some b else none
        | .error _ => none) := by
  intro l
  induction l with
  | nil =>
    intro out h
    simp only [mapExcept, Except.ok.injEq] at h
    simp [← h]
  | cons a t ih =>
    intro out h
    simp only [mapExcept] at h
    cases hfa : f a with
    | error e => rw [hfa] at h; simp at h
    | ok b =>
      rw [hfa] at h
      cases hmt : mapExcept f t with
      | error e => rw [hmt] at h; simp at h
      | ok bs =>
        rw [hmt] at h
        simp only [Except.ok.injEq] at h
        subst h
        by_cases hpb : p b = true
        · simp [List.filter_cons, List.filterMap_cons, hfa, hpb, ih bs hmt]
        · simp only [Bool.not_eq_true] at hpb
          simp [List.filter_cons, List.filterMap_cons, hfa, hpb, ih bs hmt]

/-! Claim theorems. -/

/-- Claim C1 (code bug): the claimed invariant — after stacking, every
stage's payload equals its original payload plus the sum of the ORIGINAL
initial masses of the stages strictly above it — fails on the code for a
three-stage vehicle.  With three identical stages of original initial mass
1650 and payload 500, the invariant demands a bottom-stage payload of
`500 + 1650 + 1650 = 3800`, but `stack_stages` produces 5450: the loop sums
the ALREADY-UPDATED masses of all stages above, so the top stage's 1650 is
added to the bottom stage twice (once directly and once inside the middle
stage's updated payload).  The middle stage (2150) and top stage (500,
untouched) do satisfy the invariant, as does any vehicle of at most two
stages. -/
theorem stack_stages_double_counts_third_stage :
    (stack_stages vehicle3).stages.map Stage.m_payload = [5450, 2150, 500] ∧
    (5450 : ℝ) ≠ 500 + ((1000 + 150 + 500) + (1000 + 150 + 500)) := by
  constructor
  · simp [stack_stages, stack_stages_list, vehicle3, stage_1650]
    norm_num
  · norm_num

/-- Claim C8 (amended): on an engine with `ṁ` and `v_e` set and `p_e`, `A_e`
unset, the pressure term is exactly zero and `total_thrust` equals
`η · momentum_thrust` exactly; it equals `momentum_thrust` itself exactly
when `η = 1` (the constructor default) — but not in general, since the
source multiplies the bracket by `η`. -/
theorem total_thrust_pressure_unset_eq_eta_momentum (p : Propulsion)
    (a b : ℝ) (h1 : p.mdot = some a) (h2 : p.ve = some b)
    (h3 : p.p_e = none) (_h4 : p.A_e = none) :
    p.pressure_thrust = 0 ∧
    p.total_thrust = .ok (p.eta * (a * b)) ∧
    p.momentum_thrust = .ok (a * b) ∧
    (p.eta = 1 → p.total_thrust = p.momentum_thrust) := by
  have hpt : p.pressure_thrust = 0 := by
    simp [Propulsion.pressure_thrust, h3]
  have hmom : p.momentum_thrust = .ok (a * b) := by
    simp [Propulsion.momentum_thrust, Propulsion.require_params, h1, h2]
  have htot : p.total_thrust = .ok (p.eta * (a * b)) := by
    rw [Propulsion.total_thrust_eq p a b h1 h2, hpt, add_zero]
  refine ⟨hpt, htot, hmom, fun heta => ?_⟩
  rw [htot, hmom, heta, one_mul]

/-- Witness for C8's amended theorem at the concrete engine `engine_unit`
(`ṁ = 2`, `v_e = 3`, `η = 1`). -/
theorem total_thrust_pressure_unset_eq_eta_momentum_witness :
    engine_unit.pressure_thrust = 0 ∧
    engine_unit.total_thrust = .ok (engine_unit.eta * (2 * 3)) ∧
    engine_unit.momentum_thrust = .ok (2 * 3) ∧
    (engine_unit.eta = 1 →
      engine_unit.total_thrust = engine_unit.momentum_thrust) :=
  total_thrust_pressure_unset_eq_eta_momentum engine_unit 2 3 rfl rfl rfl rfl

/-- Counterexample to claim C8 as stated: on `engine_half`
(`ṁ = 1`, `v_e = 1`, `η = 1/2`, `p_e`/`A_e` unset), `total_thrust` is `1/2`
while `momentum_thrust` is `1` — they are not equal. -/
theorem total_thrust_ne_momentum_thrust_half_eta :
    engine_half.total_thrust = .ok (1 / 2) ∧
    engine_half.momentum_thrust = .ok 1 ∧
    engine_half.total_thrust ≠ engine_half.momentum_thrust := by
  refine ⟨?_, ?_, ?_⟩
  · norm_num [engine_half, Propulsion.total_thrust,
      Propulsion.momentum_thrust, Propulsion.pressure_thrust,
      Propulsion.require_params]
  · simp [engine_half, Propulsion.momentum_thrust, Propulsion.require_params]
  · norm_num [engine_half, Propulsion.total_thrust,
      Propulsion.momentum_thrust, Propulsion.pressure_thrust,
      Propulsion.require_params]

/-- Claim C9 (confirmed): with `ṁ` set to 0 (and `v_e` set, so that no
missing-parameter error pre-empts), `specific_impulse` and
`effective_exhaust_velocity` both surface the division by zero as
`ZeroDivisionError` — a class distinct from the `ValueError` used for
structural errors — and never return a value (no silent infinity/NaN:
CPython float division raises on a zero denominator). -/
theorem specific_impulse_zero_mdot_zero_division (p : Propulsion) (b : ℝ)
    (h1 : p.mdot = some 0) (h2 : p.ve = some b) :
    p.specific_impulse = .error .zeroDivisionError ∧
    p.effective_exhaust_velocity = .error .zeroDivisionError := by
  have htot := Propulsion.total_thrust_eq p 0 b h1 h2
  constructor
  · simp [Propulsion.specific_impulse, Propulsion.require_params, h1, htot,
      pydiv]
  · simp [Propulsion.effective_exhaust_velocity, Propulsion.require_params,
      h1, htot, pydiv]

/-- Witness for C9 at the concrete engine `engine_zero_mdot`
(`ṁ = 0`, `v_e = 1`). -/
theorem specific_impulse_zero_mdot_zero_division_witness :
    engine_zero_mdot.specific_impulse = .error .zeroDivisionError ∧
    engine_zero_mdot.effective_exhaust_velocity =
      .error .zeroDivisionError :=
  specific_impulse_zero_mdot_zero_division engine_zero_mdot 1 rfl rfl

/-- Claim C10 (confirmed): `vectorized_sweep` never mutates its templates:
the engine-template and stage-template states it hands back to the caller
are exactly the input templates (the loop body only reads them, building a
fresh `Propulsion` per cell), for every input and even when the sweep
aborts with an exception. -/
theorem vectorized_sweep_preserves_templates (e : Propulsion) (s : Stage)
    (m : Mission) (vr mr : List ℝ) :
    (vectorized_sweep e s m vr mr).2 = (e, s) := rfl

/-- Claim C6 (amended): for a POSITIVE final mass `mf`, `achieved_delta_v`
fails with the InvalidMass error (`"Initial mass must exceed final mass."`)
if and only if `m0 ≤ mf`, and otherwise returns exactly
`g₀ · isp · ln(m0 / mf)` with `g₀ = 9.80665`.  (The restriction to
`0 < mf` is forced: at `mf = 0 < m0` the float division raises
`ZeroDivisionError` instead — see the counterexample.) -/
theorem achieved_delta_v_invalid_mass_iff (m : Mission) (isp m0 mf : ℝ)
    (hmf : 0 < mf) :
    (m.achieved_delta_v isp m0 mf =
        .error (.valueError .initialMassMustExceedFinal) ↔ m0 ≤ mf) ∧
    (mf < m0 →
      m.achieved_delta_v isp m0 mf = .ok (G0 * isp * Real.log (m0 / mf))) := by
  by_cases h : m0 ≤ mf
  · refine ⟨⟨fun _ => h, fun _ => ?_⟩, fun hlt => absurd hlt (not_lt.mpr h)⟩
    simp [Mission.achieved_delta_v, h]
  · have hlt : mf < m0 := not_le.mp h
    have hratio : 0 < m0 / mf := div_pos (lt_trans hmf hlt) hmf
    have hok : m.achieved_delta_v isp m0 mf =
        .ok (G0 * isp * Real.log (m0 / mf)) := by
      simp [Mission.achieved_delta_v, h, pydiv, mathLog, hmf.ne',
        not_le.mpr hratio]
    exact ⟨by simp [hok, hlt], fun _ => hok⟩

/-- Witness for C6's amended theorem at the spec's own test point
`isp = 300`, `m0 = 10000`, `mf = 4000`. -/
theorem achieved_delta_v_invalid_mass_iff_witness :
    (mission0.achieved_delta_v 300 10000 4000 =
        .error (.valueError .initialMassMustExceedFinal) ↔
      (10000 : ℝ) ≤ 4000) ∧
    ((4000 : ℝ) < 10000 →
      mission0.achieved_delta_v 300 10000 4000 =
        .ok (G0 * 300 * Real.log (10000 / 4000))) :=
  achieved_delta_v_invalid_mass_iff mission0 300 10000 4000 (by norm_num)

/-- Counterexample to claim C6 as stated over ALL masses: at `m0 = 1`,
`mf = 0` we have `m0 > mf`, yet `achieved_delta_v` does not return
`g₀ · isp · ln(m0/mf)` — the float division `m0 / mf` raises
`ZeroDivisionError` (which is not the InvalidMass `ValueError`). -/
theorem achieved_delta_v_zero_final_mass_zero_division :
    mission0.achieved_delta_v 1 1 0 = .error .zeroDivisionError ∧
    (0 : ℝ) < 1 := by
  constructor
  · norm_num [Mission.achieved_delta_v, pydiv]
  · norm_num

/-- Claim C5 (amended): `Stage.delta_v` performs NO validation of the mass
ratio before taking the logarithm.  For any stage with an attached engine
whose `ṁ` and `v_e` are set and `ṁ ≠ 0`, zero propellant (so that
`initial_mass = final_mass ≠ 0`, ratio exactly 1) makes `delta_v` return
`0` — a non-positive delta-v, not an InvalidMass error.  (A non-positive
ratio would surface as `math.log`'s generic math-domain `ValueError`, and
`final_mass = 0` as `ZeroDivisionError`.) -/
theorem delta_v_no_ratio_validation (s : Stage) (e : Propulsion) (a b : ℝ)
    (he : s.engine = some e) (h1 : e.mdot = some a) (h2 : e.ve = some b)
    (ha : a ≠ 0) (hp : s.m_prop = 0) (hf : s.final_mass ≠ 0) :
    s.delta_v = .ok 0 := by
  have htot := Propulsion.total_thrust_eq e a b h1 h2
  have hG : (G0 : ℝ) ≠ 0 := by norm_num [G0]
  have hisp : e.specific_impulse =
      .ok (e.eta * (a * b + e.pressure_thrust) / (a * G0)) := by
    simp [Propulsion.specific_impulse, Propulsion.require_params, h1, htot,
      pydiv, mul_ne_zero ha hG]
  have hmass : s.initial_mass = s.final_mass := by
    simp [Stage.initial_mass, Stage.final_mass, hp]
  simp [Stage.delta_v, he, hisp, hmass, pydiv, hf, div_self hf, mathLog]
  norm_num

/-- Witness for C5's amended theorem at the concrete zero-propellant stage
`stage_w5` (engine `ṁ = 2`, `v_e = 3`; dry 2, payload 3). -/
theorem delta_v_no_ratio_validation_witness : stage_w5.delta_v = .ok 0 :=
  delta_v_no_ratio_validation stage_w5 engine_unit 2 3 rfl rfl rfl
    (by norm_num) rfl (by norm_num [stage_w5, Stage.final_mass])

/-- Counterexample to claim C5 as stated: `stage_zero_prop` has an attached
engine and `initial_mass / final_mass = 1 ≯ 1`, yet `delta_v` raises no
InvalidMass error — it returns the non-positive delta-v `0`. -/
theorem delta_v_zero_propellant_ok_zero :
    stage_zero_prop.delta_v = .ok 0 := by
  norm_num [stage_zero_prop, engine_one, Stage.delta_v, Stage.initial_mass,
    Stage.final_mass, Propulsion.specific_impulse, Propulsion.total_thrust,
    Propulsion.momentum_thrust, Propulsion.pressure_thrust,
    Propulsion.require_params, pydiv, mathLog, G0]

/-- Claim C7 (amended): `propellant_for_delta_v` inverts `achieved_delta_v`
exactly over the reals for every `isp > 0`, `dry + payload > 0` and
`delta_v > 0`: feeding `(dry + payload + m_prop, dry + payload)` back into
`achieved_delta_v` reproduces `delta_v` exactly.  (Strict positivity of
`delta_v` and of `dry + payload` is forced: at `delta_v = 0` the computed
propellant is 0 and the round trip fails with InvalidMass — see the
counterexample.) -/
theorem propellant_for_delta_v_inverse (m : Mission)
    (isp dry payload dv : ℝ) (hisp : 0 < isp) (hm : 0 < dry + payload)
    (hdv : 0 < dv) :
    m.propellant_for_delta_v isp dry payload (some dv) =
      .ok ((dry + payload) * (Real.exp (dv / (G0 * isp)) - 1)) ∧
    m.achieved_delta_v isp
      (dry + payload + (dry + payload) * (Real.exp (dv / (G0 * isp)) - 1))
      (dry + payload) = .ok dv := by
  have hG : (0 : ℝ) < G0 := by norm_num [G0]
  have hGisp : 0 < G0 * isp := mul_pos hG hisp
  have hx : 0 < dv / (G0 * isp) := div_pos hdv hGisp
  have hE : 1 < Real.exp (dv / (G0 * isp)) := by
    rw [← Real.exp_zero]
    exact Real.exp_lt_exp.mpr hx
  set mf := dry + payload with hmf
  set E := Real.exp (dv / (G0 * isp)) with hEdef
  have hm0 : mf + mf * (E - 1) = mf * E := by ring
  have hgt : mf < mf + mf * (E - 1) := by
    rw [hm0]
    calc mf = mf * 1 := (mul_one mf).symm
    _ < mf * E := by exact mul_lt_mul_of_pos_left hE hm
  have hratio : (mf + mf * (E - 1)) / mf = E := by
    rw [hm0]
    exact mul_div_cancel_left₀ E hm.ne'
  constructor
  · simp [Mission.propellant_for_delta_v, not_le.mpr hisp]
  · have hEpos : 0 < E := lt_trans one_pos hE
    simp only [Mission.achieved_delta_v, not_le.mpr hgt, if_false, pydiv,
      hm.ne', if_neg, mathLog, hratio, not_le.mpr hEpos]
    rw [hEdef, Real.log_exp]
    congr 1
    field_simp

/-- Witness for C7's amended theorem at `isp = 1`, `dry = 1`, `payload = 0`,
`delta_v = 1`. -/
theorem propellant_for_delta_v_inverse_witness :
    mission0.propellant_for_delta_v 1 1 0 (some 1) =
      .ok ((1 + 0) * (Real.exp (1 / (G0 * 1)) - 1)) ∧
    mission0.achieved_delta_v 1
      (1 + 0 + (1 + 0) * (Real.exp (1 / (G0 * 1)) - 1)) (1 + 0) = .ok 1 :=
  propellant_for_delta_v_inverse mission0 1 1 0 1 one_pos (by norm_num)
    one_pos

/-- Counterexample to claim C7 as stated (which allows `delta_v ≥ 0`): at
`isp = 1`, `dry = 1`, `payload = 0`, `delta_v = 0` the computed propellant
mass is 0, and the round trip `achieved_delta_v(1, 1+0+0, 1+0)` does not
reproduce `delta_v = 0` — it fails with the InvalidMass error because
`m0 = mf`. -/
theorem propellant_roundtrip_fails_at_zero_delta_v :
    mission0.propellant_for_delta_v 1 1 0 (some 0) = .ok 0 ∧
    mission0.achieved_delta_v 1 (1 + 0 + 0) (1 + 0) =
      .error (.valueError .initialMassMustExceedFinal) := by
  constructor
  · norm_num [Mission.propellant_for_delta_v, Real.exp_zero]
  · norm_num [Mission.achieved_delta_v]

/-- Claim C2 (confirmed against the spec-modelled sweep): for a 3-stage
template and candidate sets of sizes 3, 3 and 2, `n_stage_engine_sweep`
enumerates exactly `3 · 3 · 2 = 18` candidates, in the Cartesian product's
natural nested order (the stage-0 set varies slowest), and — whenever it
returns normally — returns exactly the candidates whose evaluation yields
`mission_satisfied = true`, as the order-preserving, non-deduplicating
filter of that enumeration. -/
theorem n_stage_engine_sweep_spec (v : LaunchVehicle) (m : Mission)
    (s0 s1 s2 : List EngineCandidate) (hv : v.stages.length = 3)
    (h0 : s0.length = 3) (h1 : s1.length = 3) (h2 : s2.length = 2) :
    (cartProd [s0, s1, s2]).length = 18 ∧
    cartProd [s0, s1, s2] =
      s0.flatMap (fun a =>
        s1.flatMap (fun b => s2.map (fun c => [a, b, c]))) ∧
    ∀ out, n_stage_engine_sweep v m [s0, s1, s2] = .ok out →
      out = (cartProd [s0, s1, s2]).filterMap (fun combo =>
        match evaluate_mission (apply_combo v combo) m with
        | .ok r => if r.mission_satisfied then some (combo, r) else none
        | .error _ => none) := by
  refine ⟨?_, cartProd_three s0 s1 s2, ?_⟩
  · rw [cartProd_length]
    simp [h0, h1, h2]
  · intro out hout
    rw [n_stage_engine_sweep] at hout
    rw [if_neg (by simp [hv])] at hout
    cases hmap : mapExcept
        (fun combo =>
          match evaluate_mission (apply_combo v combo) m with
          | .error e => .error e
          | .ok r => .ok (combo, r))
        (cartProd [s0, s1, s2]) with
    | error e => rw [hmap] at hout; simp at hout
    | ok pairs =>
      rw [hmap] at hout
      simp only [Except.ok.injEq] at hout
      rw [← hout]
      rw [mapExcept_ok_filterMap
        (fun combo =>
          match evaluate_mission (apply_combo v combo) m with
          | .error e => .error e
          | .ok r => .ok (combo, r))
        (fun pr => pr.2.mission_satisfied) (cartProd [s0, s1, s2]) pairs
        hmap]
      apply List.filterMap_congr
      intro combo _
      cases hev : evaluate_mission (apply_combo v combo) m with
      | error e => simp [hev]
      | ok r => simp [hev]

/-- Witness for C2 at a concrete 3-stage vehicle and candidate sets of
sizes 3, 3 and 2. -/
theorem n_stage_engine_sweep_spec_witness :
    (cartProd [set0_c2, set1_c2, set2_c2]).length = 18 ∧
    cartProd [set0_c2, set1_c2, set2_c2] =
      set0_c2.flatMap (fun a =>
        set1_c2.flatMap (fun b => set2_c2.map (fun c => [a, b, c]))) ∧
    ∀ out, n_stage_engine_sweep veh_c2 mission0
        [set0_c2, set1_c2, set2_c2] = .ok out →
      out = (cartProd [set0_c2, set1_c2, set2_c2]).filterMap (fun combo =>
        match evaluate_mission (apply_combo veh_c2 combo) mission0 with
        | .ok r => if r.mission_satisfied then some (combo, r) else none
        | .error _ => none) :=
  n_stage_engine_sweep_spec veh_c2 mission0 set0_c2 set1_c2 set2_c2
    rfl rfl rfl rfl

/-- Claim C4 (amended): for every mission, grids, and stage template with
nonzero final mass, `vectorized_sweep` runs to completion over every cell —
it returns all four metric grids and the feasibility grid with the full
`|ve_range| × |mdot_range|` meshgrid shape — and when the per-cell
evaluation fails structurally (the `ValueError` raised by
`achieved_delta_v` for `initial_mass ≤ final_mass`; the only structural
error a cell can raise, since grid values are always set on the fresh
engine) the affected cells are recorded as NaN in the delta-v,
thrust-to-weight and burn-time grids and as `False` in the feasibility
grid.  Cells with mass-flow-rate ≤ 0 are NOT structural failures — numpy
float64 division yields ordinary values there (see the counterexample) —
and a template with `final_mass = 0 < initial_mass` aborts the sweep with
`ZeroDivisionError`. -/
theorem vectorized_sweep_completes_and_marks_nan (e : Propulsion)
    (s : Stage) (m : Mission) (vr mr : List ℝ) (hmf : s.final_mass ≠ 0) :
    ∃ g, (vectorized_sweep e s m vr mr).1 = .ok g ∧
      g.dv.length = vr.length ∧ g.tw.length = vr.length ∧
      g.burn_time.length = vr.length ∧ g.feasible.length = vr.length ∧
      (∀ row ∈ g.dv, row.length = mr.length) ∧
      (∀ row ∈ g.tw, row.length = mr.length) ∧
      (∀ row ∈ g.burn_time, row.length = mr.length) ∧
      (∀ row ∈ g.feasible, row.length = mr.length) ∧
      (s.initial_mass ≤ s.final_mass →
        (∀ row ∈ g.dv, ∀ c ∈ row, c = none) ∧
        (∀ row ∈ g.tw, ∀ c ∈ row, c = none) ∧
        (∀ row ∈ g.burn_time, ∀ c ∈ row, c = none) ∧
        (∀ row ∈ g.feasible, ∀ c ∈ row, c = false)) := by
  obtain ⟨rows, hrows, hlen, hP⟩ :=
    mapExcept_ok_all
      (fun ve => mapExcept (fun md => sweep_cell e s m ve md) mr)
      (fun row => row.length = mr.length ∧ ∀ c ∈ row,
        s.initial_mass ≤ s.final_mass → c = (none, none, none, false))
      vr
      (fun ve _ =>
        mapExcept_ok_all (fun md => sweep_cell e s m ve md)
          (fun c => s.initial_mass ≤ s.final_mass →
            c = (none, none, none, false))
          mr (fun md _ => sweep_cell_ok e s m ve md hmf))
  refine ⟨{ ve := vr.map (fun v => mr.map (fun _ => v)),
            mdot := vr.map (fun _ => mr),
            dv := rows.map (fun r => r.map (fun c => c.1)),
            tw := rows.map (fun r => r.map (fun c => c.2.1)),
            burn_time := rows.map (fun r => r.map (fun c => c.2.2.1)),
            feasible := rows.map (fun r => r.map (fun c => c.2.2.2)) },
    ?_, by simp [hlen], by simp [hlen], by simp [hlen], by simp [hlen],
    ?_, ?_, ?_, ?_, ?_⟩
  · simp [vectorized_sweep, hrows, Except.map]
  · intro row hrow
    obtain ⟨r, hr, hrw⟩ := List.mem_map.mp hrow
    simpa [← hrw] using (hP r hr).1
  · intro row hrow
    obtain ⟨r, hr, hrw⟩ := List.mem_map.mp hrow
    simpa [← hrw] using (hP r hr).1
  · intro row hrow
    obtain ⟨r, hr, hrw⟩ := List.mem_map.mp hrow
    simpa [← hrw] using (hP r hr).1
  · intro row hrow
    obtain ⟨r, hr, hrw⟩ := List.mem_map.mp hrow
    simpa [← hrw] using (hP r hr).1
  · intro hnan
    refine ⟨?_, ?_, ?_, ?_⟩
    all_goals
      intro row hrow c hc
      obtain ⟨r, hr, hrw⟩ := List.mem_map.mp hrow
      rw [← hrw] at hc
      obtain ⟨x, hx, hxc⟩ := List.mem_map.mp hc
      have hnx := (hP r hr).2 x hx hnan
      rw [← hxc, hnx]

/-- Witness for C4's amended theorem on the driver.py stage template
(final mass 1000) over the single-cell grid `ve = [1]`, `mdot = [-1]`. -/
theorem vectorized_sweep_completes_and_marks_nan_witness :
    ∃ g, (vectorized_sweep engine_blank stage_c4 mission0 [1] [-1]).1 =
        .ok g ∧
      g.dv.length = [(1 : ℝ)].length ∧ g.tw.length = [(1 : ℝ)].length ∧
      g.burn_time.length = [(1 : ℝ)].length ∧
      g.feasible.length = [(1 : ℝ)].length ∧
      (∀ row ∈ g.dv, row.length = [(-1 : ℝ)].length) ∧
      (∀ row ∈ g.tw, row.length = [(-1 : ℝ)].length) ∧
      (∀ row ∈ g.burn_time, row.length = [(-1 : ℝ)].length) ∧
      (∀ row ∈ g.feasible, row.length = [(-1 : ℝ)].length) ∧
      (stage_c4.initial_mass ≤ stage_c4.final_mass →
        (∀ row ∈ g.dv, ∀ c ∈ row, c = none) ∧
        (∀ row ∈ g.tw, ∀ c ∈ row, c = none) ∧
        (∀ row ∈ g.burn_time, ∀ c ∈ row, c = none) ∧
        (∀ row ∈ g.feasible, ∀ c ∈ row, c = false)) :=
  vectorized_sweep_completes_and_marks_nan engine_blank stage_c4 mission0
    [1] [-1] (by norm_num [stage_c4, Stage.final_mass])

/-- Counterexample to claim C4 as stated: a cell with mass-flow-rate
`−1 ≤ 0` is NOT recorded as NaN — on the driver.py stage template
(`m_prop = 2000`) the burn-time grid cell holds the ordinary finite value
`2000 / (−1) = −2000`, because numpy float64 division by a negative (or
zero) mass flow rate raises nothing. -/
theorem vectorized_sweep_negative_mdot_cell_not_nan :
    Except.map (fun g => g.burn_time)
        (vectorized_sweep engine_blank stage_c4 mission0 [1] [-1]).1 =
      .ok [[some (-2000)]] := by
  norm_num [vectorized_sweep, mapExcept, sweep_cell, fresh_engine,
    engine_blank, stage_c4, mission0, Stage.initial_mass, Stage.final_mass,
    Propulsion.total_thrust, Propulsion.momentum_thrust,
    Propulsion.pressure_thrust, Propulsion.require_params,
    Mission.achieved_delta_v, pydiv, mathLog, Except.map]

/-- Claim C3 (amended): `evaluate_stage_mission` never raises for a merely
unsatisfied constraint, and — contrary to the claim as stated — it also
CATCHES the structural `ValueError`s raised during evaluation: with an
engine whose `ṁ` is unset (the MissingParameter condition), every metric is
recorded as `None` and the function returns an ordinary result with
`mission_satisfied = false` instead of propagating the error.  (Only
non-`ValueError` exceptions, such as `ZeroDivisionError`, propagate.) -/
theorem evaluate_stage_mission_catches_structural_errors (e : Propulsion)
    (s : Stage) (m : Mission) (se : Propulsion) (h1 : e.mdot = none)
    (h2 : s.engine = some se) (h3 : se.mdot = none) :
    evaluate_stage_mission e s m =
      .ok ⟨s.initial_mass, s.final_mass, none, none, none, none,
           false, false, false, false⟩ := by
  have hbt : s.burn_time =
      .error (.valueError .mdotMustBeDefinedAndPositive) := by
    simp [Stage.burn_time, h2, h3]
  have htot : e.total_thrust = .error (.valueError
      (.missingParams (([(ParamName.mdot, (none : Option ℝ)),
        (ParamName.ve, e.ve)].filter
          (fun q => q.2.isNone)).map Prod.fst))) := by
    rw [Propulsion.total_thrust]
    rw [h1]
    rw [Propulsion.require_params]
    simp
  simp [evaluate_stage_mission, hbt, htot, catchValue]

/-- Witness for C3's amended theorem: a stage on the all-unset engine
evaluated with that same engine yields an ordinary `mission_satisfied =
false` result. -/
theorem evaluate_stage_mission_catches_structural_errors_witness :
    evaluate_stage_mission engine_blank stage_w3 mission0 =
      .ok ⟨stage_w3.initial_mass, stage_w3.final_mass, none, none, none,
           none, false, false, false, false⟩ :=
  evaluate_stage_mission_catches_structural_errors engine_blank stage_w3
    mission0 engine_blank rfl rfl rfl

/-- Counterexample to claim C3 as stated: `engine_missing` has `ṁ` unset, so
`total_thrust`/`specific_impulse` raise the MissingParameter `ValueError` —
a structural error — yet `evaluate_stage_mission` returns `.ok` with
`mission_satisfied = false` (metrics `None`) instead of propagating it. -/
theorem evaluate_stage_mission_swallows_missing_param :
    evaluate_stage_mission engine_missing stage_missing mission0 =
      .ok ⟨2, 1, none, none, none, none, false, false, false, false⟩ := by
  norm_num [evaluate_stage_mission, engine_missing, stage_missing,
    catchValue, Stage.burn_time, Stage.initial_mass, Stage.final_mass,
    Propulsion.total_thrust, Propulsion.momentum_thrust,
    Propulsion.require_params]

